import Mathlib

/-!
Verification of the GATMobilityAnalysis repository: a shallow embedding of
the ST-GAT forecasting model's shape pipeline (src/models/st_gat.py), the
expanding-window grid-search driver (src/models/hyperparameter_search.py),
the run script's checkpoint branch (src/run.py) and the plotting slice
logic (src/visualizations/predictions.py), with theorems settling the
spec's claims about them.

Python `float` values are modelled as exact rationals: an IEEE-754 double
is a rational number, and the decimal literals and products appearing in
the code are reproduced by explicit round-to-nearest-even at 53 bits of
precision (no overflow/subnormals arise in the ranges used here).
-/

namespace GATMobility

/-! ## IEEE-754 double model (exact, over ℚ)

`hyperparameter_search.py` computes `train_size = int(train_ratio * num_graphs)`
with `train_ratio` a Python float.  We model a (finite, normal, positive)
double as the exact rational it denotes, and rounding of a positive real
(rational) to the nearest double explicitly. -/

/-- Round a rational to the nearest integer, ties to even (IEEE default). -/
def roundHalfEven (q : ℚ) : ℤ :=
  let f : ℤ := ⌊q⌋
  let r : ℚ := q - f
  if r < 1/2 then f
  else if 1/2 < r then f + 1
  else if f % 2 = 0 then f else f + 1

/-- `2^z` as a rational, for an integer exponent. -/
def pow2 (z : ℤ) : ℚ :=
  if 0 ≤ z then ((2 ^ z.toNat : ℕ) : ℚ) else 1 / ((2 ^ (-z).toNat : ℕ) : ℚ)

/-- Upward search for the binary exponent: the first `e ≥ start` with
`q < 2^(e+1)`, within the given fuel. -/
def binExpFrom (q : ℚ) (start : ℤ) : ℕ → ℤ
  | 0 => start
  | fuel + 1 => if q < pow2 (start + 1) then start else binExpFrom q (start + 1) fuel

/-- Binary exponent of a positive rational: the `e` with `2^e ≤ q < 2^(e+1)`,
found by bounded search over the range of magnitudes arising in this
repository (from `1e-4`, whose exponent is `-14`, to products below `2^16`). -/
def binExp (q : ℚ) : ℤ := binExpFrom q (-16) 32

/-- Round a positive rational to the nearest IEEE-754 double (53-bit
significand, round-to-nearest ties-to-even); 0 maps to 0.  Negative
inputs, overflow and subnormals do not occur in the modelled code. -/
def toDouble (q : ℚ) : ℚ :=
  if q ≤ 0 then 0
  else
    let e := binExp q
    (roundHalfEven (q * pow2 (52 - e)) : ℚ) * pow2 (e - 52)

/-- IEEE double multiplication: exact product, rounded back to a double. -/
def fmul (a b : ℚ) : ℚ := toDouble (a * b)

/-- The double denoted by the Python literal `0.7` (the theorem
`lit0_7_correct` below checks it is the nearest double to 7/10). -/
def lit0_7 : ℚ := 3152519739159347 / 4503599627370496

/-- The double denoted by the Python literal `0.8`. -/
def lit0_8 : ℚ := 3602879701896397 / 4503599627370496

/-- The double denoted by the Python literal `0.9`. -/
def lit0_9 : ℚ := 8106479329266893 / 9007199254740992

/-- The double denoted by the Python literal `0.1`. -/
def lit0_1 : ℚ := 3602879701896397 / 36028797018963968

/-- Python `int(x)` on a nonnegative float truncates toward zero,
i.e. takes the floor. -/
def pyInt (q : ℚ) : ℤ := ⌊q⌋

/-! ## Epoch-budget lookup (hyperparameter_search.py lines 107-117)

```python
if (current_params["INITIAL_LR"] == 1e-4):   epochs = 100
elif (current_params["INITIAL_LR"] == 5e-4): epochs = 80
elif (current_params["INITIAL_LR"] == 1e-3): epochs = 70
elif (current_params["INITIAL_LR"] == 5e-3): epochs = 50
else: print("ERROR: Epoch cannot be computed."); raise
```
The bare `raise` (no active exception) raises a `RuntimeError`, aborting
the trial.  Float equality against the literals is exact equality of the
denoted rationals, so we model the learning rate as the exact rational a
double denotes. -/

/-- The double denoted by the Python literal `1e-4` (checked against
`toDouble` by `lit1e4_correct` below). -/
def lit1e4 : ℚ := 7378697629483821 / 73786976294838206464

/-- The double denoted by the Python literal `5e-4`. -/
def lit5e4 : ℚ := 1152921504606847 / 2305843009213693952

/-- The double denoted by the Python literal `1e-3`. -/
def lit1e3 : ℚ := 1152921504606847 / 1152921504606846976

/-- The double denoted by the Python literal `5e-3`. -/
def lit5e3 : ℚ := 5764607523034235 / 1152921504606846976

/-- Errors the grid-search driver can raise. -/
inductive GSError where
  /-- the bare `raise` in the epoch-budget `else` branch (a `RuntimeError`) -/
  | epochLookup : GSError
  /-- a Python `IndexError` from indexing a list out of range -/
  | indexError : GSError
  /-- a Python `KeyError` from a missing dict key -/
  | keyError : GSError
  /-- a Python error from a malformed `results.json` object -/
  | jsonError : GSError
  deriving Repr, DecidableEq

/-- Equality test on rationals through the normalized numerator/denominator
pair; agrees with `=` on ℚ (`ratEq_iff`).  Python float `==` on two doubles
is exactly equality of the rationals they denote. -/
def ratEq (a b : ℚ) : Bool := a.num == b.num && a.den == b.den

/-- The epoch-budget computation: a pure function of the learning rate. -/
def epochsForLR (lr : ℚ) : Except GSError ℕ :=
  if ratEq lr lit1e4 then .ok 100
  else if ratEq lr lit5e4 then .ok 80
  else if ratEq lr lit1e3 then .ok 70
  else if ratEq lr lit5e3 then .ok 50
  else .error .epochLookup

/-! ## load_previous_results (hyperparameter_search.py lines 18-26)

The file system is modelled as `Option Json`: `none` when `results.json`
does not exist (the `FileNotFoundError` branch), `some j` when it exists
and parses to `j`. -/

/-- A JSON value, as produced by Python's `json` module for this code
(`null` is what `json.dump` writes for Python `None`). -/
inductive Json where
  | null : Json
  | str (s : String) : Json
  | num (q : ℚ) : Json
  | arr (xs : List Json) : Json
  | obj (fields : List (String × Json)) : Json

/-- `load_previous_results`: parse `results.json` if it exists, otherwise
return `{"Results": []}`. -/
def load_previous_results (file : Option Json) : Json :=
  match file with
  | some j => j
  | none => .obj [("Results", .arr [])]

/-! ## Result records and the append-rewrite log
(hyperparameter_search.py lines 143-153) -/

/-- One fold's result record, with exactly the four fields the code writes.
The MAE is `Option ℚ` because the Python variable `val_mae` starts as
`None`; it is `some` once a validation pass has run. -/
structure ResultRecord where
  /-- the hyperparameter name → value mapping (`current_params`) -/
  params : List (String × ℚ)
  /-- the fold's train ratio -/
  train_percent : ℚ
  /-- the fold's validation MAE -/
  mae : Option ℚ
  /-- timestamp string (`f"{datetime.now()}"`) -/
  completion_time : String
  deriving Repr, DecidableEq

/-- JSON encoding of a result record, field for field as the dict literal
in the code. -/
def ResultRecord.toJson (r : ResultRecord) : Json :=
  .obj [("params", .obj (r.params.map (fun p => (p.1, .num p.2)))),
        ("train_percent", .num r.train_percent),
        ("mae", (r.mae.map Json.num).getD .null),
        ("completion_time", .str r.completion_time)]

/-- Look up a key in a JSON object (Python `data["Results"]`); `none`
models a `KeyError`/type error. -/
def Json.getField (j : Json) (key : String) : Option Json :=
  match j with
  | .obj fields => (fields.find? (fun f => f.1 = key)).map (·.2)
  | _ => none

/-- One fold-completion write: read the existing file, append the new
record to the in-memory `"Results"` list, and rewrite the whole file.
`none` models the Python exception raised when the parsed content is not
an object with a `"Results"` list. -/
def writeFoldResult (file : Option Json) (rec : ResultRecord) : Option Json :=
  let data := load_previous_results file
  match data.getField "Results" with
  | some (.arr xs) => some (.obj [("Results", .arr (xs ++ [rec.toJson]))])
  | _ => none

/-- N sequential fold-result writes, starting from a given file state. -/
def writeFoldResults (file : Option Json) (recs : List ResultRecord) : Option Json :=
  match recs with
  | [] => file
  | r :: rs => writeFoldResults (writeFoldResult file r) rs

/-! ## Tensor-shape model of the ST-GAT forward pass (st_gat.py)

The forward pass is a composition of shape-changing tensor operations; we
embed it at the shape level.  Shapes are dimension lists; fallible torch
operations (reshape with mismatched element counts, indexing an empty
axis, a linear layer on the wrong width) return `none`, modelling the
runtime error torch raises. -/

/-- A tensor shape: the list of dimension sizes. -/
abbrev Shape := List ℕ

/-- Total number of elements of a shape. -/
def numel (s : Shape) : ℕ := s.prod

/-- `torch.reshape(x, t)` with explicit target sizes: succeeds exactly when
the element counts agree. -/
def reshape (s t : Shape) : Option Shape :=
  if numel s = numel t then some t else none

/-- `torch.reshape(x, pre ++ (-1,))` / `x.view(pre..., -1)`: the last size
is inferred; fails when the known sizes are zero or do not divide. -/
def reshapeInferLast (s pre : Shape) : Option Shape :=
  let d := numel s / numel pre
  if numel pre ≠ 0 ∧ numel pre * d = numel s then some (pre ++ [d]) else none

/-- `torch.movedim(x, 2, 0)` on a rank-3 tensor. -/
def movedim20 : Shape → Option Shape
  | [a, b, c] => some [c, a, b]
  | _ => none

/-- `x.mean(dim=1)` on a rank-3 tensor. -/
def meanDim1 : Shape → Option Shape
  | [a, _, c] => some [a, c]
  | _ => none

/-- A single-layer `torch.nn.LSTM(input_size, hidden_size)` applied to a
`[seq, batch, input_size]` tensor: output is `[seq, batch, hidden_size]`. -/
def lstmShape (inputSize hiddenSize : ℕ) : Shape → Option Shape
  | [l, b, i] => if i = inputSize then some [l, b, hiddenSize] else none
  | _ => none

/-- `x[-1, :, :]`: drop the leading axis; fails on an empty leading axis
(torch raises an index error there). -/
def indexLast : Shape → Option Shape
  | l :: rest => if 0 < l then some rest else none
  | [] => none

/-- `torch.squeeze(x)`: remove every axis of size 1. -/
def squeeze (s : Shape) : Shape := s.filter (fun d => d ≠ 1)

/-- `torch.nn.Linear(inF, outF)` applied to a tensor whose trailing
dimension must be `inF`; works on rank ≥ 1. -/
def linearShape (inF outF : ℕ) : Shape → Option Shape
  | [] => none
  | [i] => if i = inF then some [outF] else none
  | d :: rest => (linearShape inF outF rest).map (fun t => d :: t)

/-- `F.dropout` preserves the shape. -/
def dropoutShape (s : Shape) : Shape := s

/-- `dgl.nn.GATConv(in_feats, out_feats, num_heads)` with
`get_attention=True` on a graph with `numNodes` nodes and `numEdges`
edges: features `[numNodes, in_feats]` produce
`([numNodes, num_heads, out_feats], [numEdges, num_heads, 1])`. -/
def gatConvShape (numNodes numEdges inFeats outFeats numHeads : ℕ)
    (feat : Shape) : Option (Shape × Shape) :=
  if feat = [numNodes, inFeats] then
    some ([numNodes, numHeads, outFeats], [numEdges, numHeads, 1])
  else none

/-- `AveragedGATConv.forward` (st_gat.py lines 14-22): GATConv, then
`h.view(h.size(0), num_heads, -1)`, then `h.mean(dim=1)`; returns the
averaged features and the attention tensor. -/
def AveragedGATConv_forward (numNodes numEdges inFeats outFeats numHeads : ℕ)
    (feat : Shape) : Option (Shape × Shape) :=
  (gatConvShape numNodes numEdges inFeats outFeats numHeads feat).bind
    fun ha =>
      (reshapeInferLast ha.1 [numNodes, numHeads]).bind fun hv =>
        (meanDim1 hv).map fun hm => (hm, ha.2)

/-- Fixed head count of the model (`NUM_HEADS = 8`). -/
def NUM_HEADS : ℕ := 8

/-- `ST_GAT.forward` (st_gat.py lines 84-147) at the shape level, for the
model constructed with `in_channels = H`, `out_channels = P`,
`n_nodes = N`, on a batched graph of `B` graphs (`B*N` nodes total,
`numEdges` edges) whose node features are `[B*N, H]`.  The architecture
constants are those of `ST_GAT.__init__`: the GAT stage uses
`out_feats = in_channels`, the LSTMs have input/hidden sizes
`N → 32 → 128`, and the linear head maps `128 → N*P`. -/
def ST_GAT_forward (B N H P heads numEdges : ℕ) : Option (Shape × Shape) :=
  let x : Shape := [B * N, H]
  (AveragedGATConv_forward (B * N) numEdges H H heads x).bind fun xa =>
    let x1 := dropoutShape xa.1
    (reshapeInferLast x1 [B, N]).bind fun x2 =>
      (movedim20 x2).bind fun x3 =>
        (lstmShape N 32 x3).bind fun x4 =>
          (lstmShape 32 128 x4).bind fun x5 =>
            (indexLast x5).bind fun x6 =>
              let x7 := squeeze x6
              (linearShape 128 (N * P) x7).bind fun x8 =>
                (reshape x8 [B, N, P]).bind fun x9 =>
                  (reshape x9 [B * N, P]).map fun x10 => (x10, xa.2)

/-! ## Fold sizing and the fold loop (hyperparameter_search.py lines 80-94)

```python
for fold, train_ratio in enumerate(train_ratios):
    train_size = int(train_ratio * num_graphs)
    val_size = int(val_ratio * num_graphs)
    if train_size + val_size > num_graphs:
        print("ERROR: ...")
        break
    train_subset = [dataset[i] for i in range(train_size)]
    val_subset = [dataset[i] for i in range(train_size, train_size + val_size)]
    ...
```
-/

/-- `train_size = int(train_ratio * num_graphs)` with IEEE double
multiplication and Python `int` truncation. -/
def train_size (ratio : ℚ) (numGraphs : ℕ) : ℤ := pyInt (fmul ratio numGraphs)

/-- `val_size = int(val_ratio * num_graphs)` with `val_ratio = 0.1`. -/
def val_size (numGraphs : ℕ) : ℤ := pyInt (fmul lit0_1 numGraphs)

/-- The expanding-window schedule `train_ratios = [0.7, 0.8, 0.9]`. -/
def train_ratios : List ℚ := [lit0_7, lit0_8, lit0_9]

/-- The fold loop over a list of train ratios: each fold whose sizes pass
the guard is processed (its ratio is recorded); the first guard violation
logs the error and breaks out, skipping the rest.  Returns the processed
ratios in order and whether the size error was logged. -/
def foldLoop (numGraphs : ℕ) : List ℚ → List ℚ × Bool
  | [] => ([], false)
  | r :: rest =>
    if train_size r numGraphs + val_size numGraphs > (numGraphs : ℤ) then
      ([], true)
    else
      let tail := foldLoop numGraphs rest
      (r :: tail.1, tail.2)

/-! ## The grid-search driver (hyperparameter_search.py lines 28-168)

`train_expanding_window_grid_search(config, param_grid, device,
param_index, fold_index)` handles a single (hyperparameter-combination,
fold) pair.  The tensor training itself is outside this repository's
logic (it calls into `models.trainer`); the driver model abstracts one
training/evaluation run by the MAE value it produces (`maeVal`) and keeps
every piece of driver-level control flow: index selection, the dataset
rebuild key lookups, the fold-size guard, the epoch-budget lookup, the
epoch/validation schedule, and the results-log write. -/

/-- A Python dict with string keys and float values, insertion-ordered. -/
abbrev PyDict := List (String × ℚ)

/-- Python dict lookup `d[k]`: `none` models a `KeyError`. -/
def dictGet (d : PyDict) (k : String) : Option ℚ :=
  (d.find? (fun p => p.1 == k)).map (fun p => p.2)

/-- `itertools.product(*values)`: the Cartesian product in lexicographic
order with the last factor varying fastest. -/
def cartesianProduct : List (List ℚ) → List (List ℚ)
  | [] => [[]]
  | xs :: rest => xs.flatMap (fun x => (cartesianProduct rest).map (fun c => x :: c))

/-- The epoch loop schedule for an `epochs`-epoch fold: every epoch `e`
runs training over all mini-batches; validation (inside `torch.no_grad()`)
runs exactly when `e % 5 == 0 or e == epochs - 1`. -/
def epochSchedule (epochs : ℕ) : List (ℕ × Bool) :=
  (List.range epochs).map (fun e => (e, e % 5 == 0 || e == epochs - 1))

/-- The triple the driver returns: `results` (a dict never written to),
`best_model` and `best_hyperparams` (never assigned; the best-tracking
block is commented out in the source). -/
structure GSReturn where
  results : PyDict
  best_model : Option Unit
  best_hyperparams : Option PyDict
  deriving Repr, DecidableEq

/-- One invocation of `train_expanding_window_grid_search`.

Inputs beyond the source function's arguments stand for its external
collaborators: `numGraphs` is `len(dataset)` after the rebuild, `maeVal`
the MAE produced by `models.trainer.eval` on this fold, `file0` the state
of `results.json`, `now` the `datetime.now()` string.  The output pairs
the final `results.json` state with the returned triple. -/
def train_expanding_window_grid_search
    (param_grid : List (String × List ℚ))
    (param_index fold_index : ℕ)
    (numGraphs : ℕ) (maeVal : ℚ) (file0 : Option Json) (now : String) :
    Except GSError (Option Json × GSReturn) :=
  -- train_ratios = [train_ratios[fold_index]]
  match train_ratios.get? fold_index with
  | none => .error .indexError
  | some ratio =>
    -- param_combinations = [list(itertools.product(*param_grid.values()))[param_index]]
    match (cartesianProduct (param_grid.map (fun p => p.2))).get? param_index with
    | none => .error .indexError
    | some combo =>
      -- current_params = dict(zip(param_grid.keys(), param_set))
      let current_params : PyDict := List.zip (param_grid.map (fun p => p.1)) combo
      -- dataset rebuild check reads N_PRED and N_HIST (prev values are None)
      match dictGet current_params "N_PRED" with
      | none => .error .keyError
      | some _ =>
      match dictGet current_params "N_HIST" with
      | none => .error .keyError
      | some _ =>
        -- fold loop over the single selected ratio
        if train_size ratio numGraphs + val_size numGraphs > (numGraphs : ℤ) then
          -- guard violated: log and break; no record is written
          .ok (file0, ⟨[], none, none⟩)
        else
          -- model/optimizer construction reads DROPOUT, INITIAL_LR, WEIGHT_DECAY
          match dictGet current_params "DROPOUT" with
          | none => .error .keyError
          | some _ =>
          match dictGet current_params "INITIAL_LR" with
          | none => .error .keyError
          | some lr =>
          match dictGet current_params "WEIGHT_DECAY" with
          | none => .error .keyError
          | some _ =>
            match epochsForLR lr with
            | .error e => .error e
            | .ok epochs =>
              -- epoch loop: val_mae is None until a validation epoch runs
              let val_mae : Option ℚ :=
                if (epochSchedule epochs).any (fun p => p.2) then some maeVal
                else none
              let record : ResultRecord :=
                { params := current_params, train_percent := ratio,
                  mae := val_mae, completion_time := now }
              match writeFoldResult file0 record with
              | none => .error .jsonError
              | some f1 =>
                -- weighted_average_mae /= len(train_ratios): len = 1, no error
                -- best-tracking is commented out; fall through to return
                .ok (some f1, ⟨[], none, none⟩)

/-! ## run.py checkpoint branch (lines 54-66)

```python
if os.path.exists(model_path) and os.path.exists(attn_path) and not RETRAIN:
    ... load model and attention checkpoints ...
else:
    ... full training ...
```
-/

/-- What the run script does after dataset construction. -/
inductive RunAction where
  /-- skip training; load the model and attention checkpoints -/
  | loadCheckpoints : RunAction
  /-- full training -/
  | fullTraining : RunAction
  deriving Repr, DecidableEq

/-- The run script's branch: skip training only when both checkpoint files
exist and the retrain flag is unset. -/
def runBranch (modelExists attnExists retrain : Bool) : RunAction :=
  if modelExists && attnExists && !retrain then .loadCheckpoints
  else .fullTraining

/-! ## Plot slicing (visualizations/predictions.py lines 24-37 and 66-79)

```python
total_slots = len(y_truth)
total_days = total_slots // config["SLOTS_PER_DAY"]
if num_days is None or num_days > total_days:
    num_days = total_days
end_idx = num_days * config["SLOTS_PER_DAY"]
y_truth = y_truth[:end_idx]
```
Both `plot_prediction` and `plot_prediction_full` share this logic
verbatim.  Python slicing `xs[:k]` keeps `min k (len xs)` elements. -/

/-- Number of time slots actually plotted, as computed by the plotting
functions: the clamped day count times `SLOTS_PER_DAY`, then the slice. -/
def plottedSlots (totalSlots slotsPerDay : ℕ) (numDays : Option ℕ) : ℕ :=
  let totalDays := totalSlots / slotsPerDay
  let days := match numDays with
    | none => totalDays
    | some d => if d > totalDays then totalDays else d
  min (days * slotsPerDay) totalSlots

/-! ## Concrete inputs used by the witnesses -/

/-- A one-point hyperparameter grid, in the key order the repository's
grid search uses. -/
def exampleGrid : List (String × List ℚ) :=
  [("N_HIST", [12]), ("N_PRED", [9]), ("DROPOUT", [1/5]),
   ("INITIAL_LR", [lit1e4]), ("WEIGHT_DECAY", [0])]

/-- The single hyperparameter combination of `exampleGrid`. -/
def exampleParams : PyDict :=
  [("N_HIST", 12), ("N_PRED", 9), ("DROPOUT", 1/5),
   ("INITIAL_LR", lit1e4), ("WEIGHT_DECAY", 0)]

/-- The record the driver writes for `exampleGrid` at fold 0 with MAE 1/2
and timestamp `"t"`. -/
def exampleRecord : ResultRecord :=
  { params := exampleParams, train_percent := lit0_7,
    mae := some (1/2), completion_time := "t" }

/-- The `results.json` state after that single write. -/
def exampleFile : Option Json :=
  some (.obj [("Results", .arr [exampleRecord.toJson])])

/-! # Theorems -/

/-! ## Helper lemmas -/

/-- `ratEq` agrees with propositional equality on ℚ. -/
theorem ratEq_iff (a b : ℚ) : ratEq a b = true ↔ a = b := by
  constructor
  · intro h
    simp only [ratEq, Bool.and_eq_true, beq_iff_eq] at h
    exact Rat.ext h.1 h.2
  · intro h; subst h; simp [ratEq]

/-- The constant `lit0_7` is the IEEE-754 double nearest to 7/10. -/
theorem lit0_7_correct : lit0_7 = toDouble (7/10) := by with_unfolding_all rfl

/-- The constant `lit0_8` is the IEEE-754 double nearest to 8/10. -/
theorem lit0_8_correct : lit0_8 = toDouble (8/10) := by with_unfolding_all rfl

/-- The constant `lit0_9` is the IEEE-754 double nearest to 9/10. -/
theorem lit0_9_correct : lit0_9 = toDouble (9/10) := by with_unfolding_all rfl

/-- The constant `lit0_1` is the IEEE-754 double nearest to 1/10. -/
theorem lit0_1_correct : lit0_1 = toDouble (1/10) := by with_unfolding_all rfl

/-- The constant `lit1e4` is the IEEE-754 double nearest to 1/10000. -/
theorem lit1e4_correct : lit1e4 = toDouble (1/10000) := by with_unfolding_all rfl

/-- The constant `lit5e4` is the IEEE-754 double nearest to 5/10000. -/
theorem lit5e4_correct : lit5e4 = toDouble (5/10000) := by with_unfolding_all rfl

/-- The constant `lit1e3` is the IEEE-754 double nearest to 1/1000. -/
theorem lit1e3_correct : lit1e3 = toDouble (1/1000) := by with_unfolding_all rfl

/-- The constant `lit5e3` is the IEEE-754 double nearest to 5/1000. -/
theorem lit5e3_correct : lit5e3 = toDouble (5/1000) := by with_unfolding_all rfl

/-- The attention stage with `out_feats = in_feats` keeps the per-node
channel width: GATConv produces one `in_feats`-wide vector per head,
averaging across heads collapses the head axis. -/
theorem averagedGATConv_eq (numNodes numEdges inF heads : ℕ)
    (hn : 0 < numNodes) (hh : 0 < heads) :
    AveragedGATConv_forward numNodes numEdges inF inF heads [numNodes, inF] =
      some ([numNodes, inF], [numEdges, heads, 1]) := by
  have hpos : 0 < numel [numNodes, heads] := by
    simpa [numel] using Nat.mul_pos hn hh
  have hprod : numel [numNodes, heads] * inF = numel [numNodes, heads, inF] := by
    simp [numel]; try ring
  have hd : numel [numNodes, heads, inF] / numel [numNodes, heads] = inF := by
    rw [← hprod, Nat.mul_div_cancel_left _ hpos]
  simp [AveragedGATConv_forward, gatConvShape, reshapeInferLast, meanDim1,
    hd, hpos.ne', hprod]

/-! ## Claim theorems -/

/-- C2: the epoch-budget computation is a pure function of the learning
rate with exactly five behaviors: 100 epochs at learning rate 1e-4, 80 at
5e-4, 70 at 1e-3, 50 at 5e-3, and an exception (the bare `raise`) for
every other learning rate — no default epoch count. -/
theorem epochsForLR_spec :
    epochsForLR lit1e4 = .ok 100 ∧ epochsForLR lit5e4 = .ok 80 ∧
    epochsForLR lit1e3 = .ok 70 ∧ epochsForLR lit5e3 = .ok 50 ∧
    ∀ lr : ℚ, lr ∉ ([lit1e4, lit5e4, lit1e3, lit5e3] : List ℚ) →
      epochsForLR lr = .error .epochLookup := by
  refine ⟨by with_unfolding_all rfl, by with_unfolding_all rfl,
    by with_unfolding_all rfl, by with_unfolding_all rfl, ?_⟩
  intro lr h
  unfold epochsForLR
  split_ifs with h1 h2 h3 h4
  · exact absurd ((ratEq_iff _ _).1 h1 ▸ List.mem_cons_self _ _) h
  · exact absurd (by simp [(ratEq_iff _ _).1 h2]) h
  · exact absurd (by simp [(ratEq_iff _ _).1 h3]) h
  · exact absurd (by simp [(ratEq_iff _ _).1 h4]) h
  · rfl

/-- Witness for C2: a learning rate outside the mapping (3e-3) hits the
exception branch. -/
theorem epochsForLR_spec_witness :
    epochsForLR (3/1000) = .error .epochLookup :=
  epochsForLR_spec.2.2.2.2 (3/1000) (by with_unfolding_all decide)

/-- C7: the run script skips training (loading the model and attention
checkpoints instead) if and only if the model checkpoint exists, the
attention checkpoint exists, and the retrain flag is unset; if either
file is missing or the flag is set, full training proceeds. -/
theorem runBranch_spec : ∀ modelExists attnExists retrain : Bool,
    (runBranch modelExists attnExists retrain = .loadCheckpoints ↔
      (modelExists = true ∧ attnExists = true ∧ retrain = false)) ∧
    (runBranch modelExists attnExists retrain = .fullTraining ↔
      ¬(modelExists = true ∧ attnExists = true ∧ retrain = false)) := by
  decide

/-- C8: when `results.json` does not exist, `load_previous_results`
returns `{"Results": []}` rather than an error; when it exists, it
returns the parsed content. -/
theorem load_previous_results_spec :
    load_previous_results none = Json.obj [("Results", Json.arr [])] ∧
    ∀ j : Json, load_previous_results (some j) = j :=
  ⟨rfl, fun _ => rfl⟩

/-- C10: both plotting functions plot
`min num_days total_days * SLOTS_PER_DAY` slots when `num_days` is given
and `total_days * SLOTS_PER_DAY` when it is `None`, where
`total_days = total_slots / SLOTS_PER_DAY` (floor); the plotted length is
always a whole multiple of `SLOTS_PER_DAY`, so no trailing partial day is
plotted and an oversized request is clamped. -/
theorem plottedSlots_spec : ∀ (totalSlots slotsPerDay : ℕ) (numDays : Option ℕ),
    plottedSlots totalSlots slotsPerDay numDays =
      (match numDays with
        | some d => min d (totalSlots / slotsPerDay)
        | none => totalSlots / slotsPerDay) * slotsPerDay ∧
    slotsPerDay ∣ plottedSlots totalSlots slotsPerDay numDays := by
  intro totalSlots slotsPerDay numDays
  have hbase : totalSlots / slotsPerDay * slotsPerDay ≤ totalSlots :=
    Nat.div_mul_le_self _ _
  have hmain : plottedSlots totalSlots slotsPerDay numDays =
      (match numDays with
        | some d => min d (totalSlots / slotsPerDay)
        | none => totalSlots / slotsPerDay) * slotsPerDay := by
    cases numDays with
    | none => simpa [plottedSlots] using Nat.min_eq_left hbase
    | some d =>
      have hdays : (if d > totalSlots / slotsPerDay
          then totalSlots / slotsPerDay else d) = min d (totalSlots / slotsPerDay) := by
        rcases le_or_lt d (totalSlots / slotsPerDay) with hle | hlt
        · simp [Nat.not_lt.2 hle, Nat.min_eq_left hle]
        · simp [hlt, Nat.min_eq_right hlt.le]
      have hle2 : min d (totalSlots / slotsPerDay) * slotsPerDay ≤ totalSlots :=
        le_trans (Nat.mul_le_mul_right _ (Nat.min_le_right _ _)) hbase
      simp [plottedSlots, hdays, Nat.min_eq_left hle2]
  exact ⟨hmain, hmain ▸ Dvd.intro_left _ rfl⟩

/-- Appending records one at a time to an existing well-formed results
file extends its `"Results"` list in order. -/
theorem writeFoldResults_obj (recs : List ResultRecord) : ∀ xs : List Json,
    writeFoldResults (some (.obj [("Results", .arr xs)])) recs =
      some (.obj [("Results", .arr (xs ++ recs.map ResultRecord.toJson))]) := by
  induction recs with
  | nil => intro xs; simp [writeFoldResults]
  | cons r rs ih =>
    intro xs
    simp [writeFoldResults, writeFoldResult, load_previous_results,
      Json.getField, ih (xs ++ [r.toJson])]

/-- C5: starting from a missing results file, writing N fold results
sequentially through the read-existing → append-in-memory →
overwrite-whole-file pattern yields a file that is a single JSON object
whose `"Results"` key maps to the list of the N records in insertion
order, each encoded with exactly the fields `params`, `train_percent`,
`mae` and `completion_time` (see `ResultRecord.toJson`). -/
theorem results_log_roundtrip : ∀ (r : ResultRecord) (rs : List ResultRecord),
    writeFoldResults none (r :: rs) =
      some (Json.obj [("Results", Json.arr ((r :: rs).map ResultRecord.toJson))]) ∧
    ((r :: rs).map ResultRecord.toJson).length = (r :: rs).length := by
  intro r rs
  constructor
  · have h1 : writeFoldResult none r =
        some (.obj [("Results", .arr [r.toJson])]) := by
      simp [writeFoldResult, load_previous_results, Json.getField]
    calc writeFoldResults none (r :: rs)
        = writeFoldResults (writeFoldResult none r) rs := rfl
      _ = writeFoldResults (some (.obj [("Results", .arr [r.toJson])])) rs := by
          rw [h1]
      _ = some (.obj [("Results", .arr ([r.toJson] ++ rs.map ResultRecord.toJson))]) :=
          writeFoldResults_obj rs [r.toJson]
      _ = some (.obj [("Results", .arr ((r :: rs).map ResultRecord.toJson))]) := by
          simp
  · simp

/-- C6: in a fold's E-epoch training loop, the loop visits exactly epochs
0..E-1 (training runs at every one of them), and the validation pass
(run under `torch.no_grad()`) happens at epoch `e` exactly when
`e % 5 = 0` or `e = E - 1`. -/
theorem epochSchedule_spec : ∀ E : ℕ,
    (epochSchedule E).map Prod.fst = List.range E ∧
    ∀ e : ℕ, ((e, true) ∈ epochSchedule E ↔
      (e < E ∧ (e % 5 = 0 ∨ e = E - 1))) := by
  intro E
  constructor
  · rw [epochSchedule, List.map_map]
    exact List.map_id (List.range E)
  · intro e
    simp only [epochSchedule, List.mem_map, List.mem_range, Prod.mk.injEq,
      Bool.or_eq_true, beq_iff_eq]
    constructor
    · rintro ⟨a, ha, rfl, hflag⟩
      exact ⟨ha, hflag⟩
    · rintro ⟨he, hflag⟩
      exact ⟨e, he, rfl, hflag⟩

/-- C3: `train_size` and `val_size` are the floors of the float products
`train_ratio * num_graphs` and `0.1 * num_graphs` (by definition of
`pyInt`); a fold is processed if and only if
`train_size + val_size ≤ num_graphs`, and on violation the loop logs the
error and breaks, appending nothing and skipping the remaining folds;
when the guard passes every index touched by the train and validation
slices is in range (no index-out-of-range); with train_ratio = 0.9 the
boundary cases give 90+10 = 100 ≤ 100 and 89+9 = 98 ≤ 99, both passing
under exact floor arithmetic. -/
theorem fold_sizing_spec :
    train_size lit0_9 100 = 90 ∧ val_size 100 = 10 ∧
    train_size lit0_9 100 + val_size 100 ≤ 100 ∧
    train_size lit0_9 99 = 89 ∧ val_size 99 = 9 ∧
    train_size lit0_9 99 + val_size 99 ≤ 99 ∧
    (∀ (r : ℚ) (n : ℕ) (rest : List ℚ),
      foldLoop n (r :: rest) =
        if train_size r n + val_size n ≤ (n : ℤ)
        then (r :: (foldLoop n rest).1, (foldLoop n rest).2)
        else ([], true)) ∧
    (∀ (r : ℚ) (n : ℕ), train_size r n + val_size n ≤ (n : ℤ) →
      ∀ i : ℤ, 0 ≤ i → i < train_size r n + val_size n →
        0 ≤ i ∧ i < (n : ℤ)) := by
  refine ⟨by with_unfolding_all rfl, by with_unfolding_all rfl,
    by with_unfolding_all decide, by with_unfolding_all rfl,
    by with_unfolding_all rfl, by with_unfolding_all decide, ?_, ?_⟩
  · intro r n rest
    rcases le_or_lt (train_size r n + val_size n) (n : ℤ) with hle | hlt
    · simp [foldLoop, not_lt.2 hle, hle]
    · simp [foldLoop, hlt, not_le.2 hlt]
  · intro r n hguard i hi0 hi
    exact ⟨hi0, lt_of_lt_of_le hi hguard⟩

/-- Witness for C3: at train_ratio 0.9 and 100 graphs the guard passes
and index 42 (touched by the slices) is in range. -/
theorem fold_sizing_spec_witness :
    (0 : ℤ) ≤ 42 ∧ (42 : ℤ) < (100 : ℕ) :=
  fold_sizing_spec.2.2.2.2.2.2.2 lit0_9 100
    (by with_unfolding_all decide) 42 (by decide)
    (by with_unfolding_all decide)

/-- C4: for every input channel width H and every (positive) head count,
the graph attention stage — GATConv with per-head output channel count H,
then averaging across the heads — outputs one H-wide vector per node
(output channel width = input channel width H) together with the
attention-weight tensor. -/
theorem AveragedGATConv_width : ∀ (H heads numNodes numEdges : ℕ),
    0 < numNodes → 0 < heads →
    AveragedGATConv_forward numNodes numEdges H H heads [numNodes, H] =
      some ([numNodes, H], [numEdges, heads, 1]) :=
  fun H heads numNodes numEdges hn hh =>
    averagedGATConv_eq numNodes numEdges H heads hn hh

/-- Witness for C4: 4 nodes, 16 edges, width 12, the model's 8 heads. -/
theorem AveragedGATConv_width_witness :
    AveragedGATConv_forward 4 16 12 12 8 [4, 12] =
      some ([4, 12], [16, 8, 1]) :=
  AveragedGATConv_width 12 8 4 16 (by decide) (by decide)

/-- C1: for every valid (B, N, H, P) — positive batch size, node count,
history length and prediction horizon — and every positive head count,
the ST-GAT forward pass on a batched graph whose nodes carry H-length
feature vectors returns a predictions tensor of shape (B*N, P) (together
with the attention tensor); the B = 1 case goes through the intermediate
`torch.squeeze` that removes the batch axis before the linear head. -/
theorem ST_GAT_output_shape : ∀ (B N H P heads numEdges : ℕ),
    0 < B → 0 < N → 0 < H → 0 < P → 0 < heads →
    ST_GAT_forward B N H P heads numEdges =
      some ([B * N, P], [numEdges, heads, 1]) := by
  intro B N H P heads numEdges hB hN hH hP hh
  have hgat := averagedGATConv_eq (B * N) numEdges H heads (Nat.mul_pos hB hN) hh
  have hpre : 0 < numel [B, N] := by
    simpa [numel] using Nat.mul_pos hB hN
  have hprod : numel [B, N] * H = numel [B * N, H] := by
    simp [numel]; try ring
  have hd : numel [B * N, H] / numel [B, N] = H := by
    rw [← hprod, Nat.mul_div_cancel_left _ hpre]
  have h2 : reshapeInferLast [B * N, H] [B, N] = some [B, N, H] := by
    simp [reshapeInferLast, hd, hpre.ne', hprod]
  have h4 : lstmShape N 32 [H, B, N] = some [H, B, 32] := by simp [lstmShape]
  have h5 : lstmShape 32 128 [H, B, 32] = some [H, B, 128] := by simp [lstmShape]
  have h6 : indexLast [H, B, 128] = some [B, 128] := by simp [indexLast, hH]
  simp only [ST_GAT_forward, hgat, Option.bind_eq_bind, Option.some_bind,
    dropoutShape, h2, movedim20, h4, h5, h6]
  rcases eq_or_ne B 1 with hB1 | hB1
  · subst hB1
    have hsq : squeeze [1, 128] = [128] := by decide
    have hlin : linearShape 128 (N * P) [128] = some [N * P] := by
      simp [linearShape]
    have hr1 : reshape [N * P] [1, N, P] = some [1, N, P] := by
      simp [reshape, numel, Nat.mul_assoc]
    have hr2 : reshape [1, N, P] [N, P] = some [N, P] := by
      simp [reshape, numel, Nat.mul_assoc]
    simp [hsq, hlin, hr1, hr2]
  · have hsq : squeeze [B, 128] = [B, 128] := by
      simp [squeeze, hB1]
    have hlin : linearShape 128 (N * P) [B, 128] = some [B, N * P] := by
      simp [linearShape]
    have hr1 : reshape [B, N * P] [B, N, P] = some [B, N, P] := by
      simp [reshape, numel, Nat.mul_assoc]
    have hr2 : reshape [B, N, P] [B * N, P] = some [B * N, P] := by
      simp [reshape, numel, Nat.mul_assoc]
    simp [hsq, hlin, hr1, hr2]

/-- C9: whenever `train_expanding_window_grid_search` returns normally,
the returned triple is the empty results dictionary, a `None` best model
and `None` best hyperparameters, regardless of configuration, grid or
indices — the best-tracking assignments are never executed. -/
theorem gridSearch_return : ∀ (param_grid : List (String × List ℚ))
    (param_index fold_index numGraphs : ℕ) (maeVal : ℚ)
    (file0 : Option Json) (now : String) (out : Option Json × GSReturn),
    train_expanding_window_grid_search param_grid param_index fold_index
      numGraphs maeVal file0 now = .ok out →
    out.2 = ⟨[], none, none⟩ := by
  intro pg pi fi n mae f0 now out h
  unfold train_expanding_window_grid_search at h
  rcases hr : train_ratios.get? fi with _ | ratio <;> simp only [hr] at h
  · cases h
  rcases hc : (cartesianProduct (List.map (fun p => p.2) pg)).get? pi with _ | combo <;>
    simp only [hc] at h
  · cases h
  rcases hnp : dictGet ((List.map (fun p => p.1) pg).zip combo) "N_PRED" with _ | vnp <;>
    simp only [hnp] at h
  · cases h
  rcases hnh : dictGet ((List.map (fun p => p.1) pg).zip combo) "N_HIST" with _ | vnh <;>
    simp only [hnh] at h
  · cases h
  by_cases hg : train_size ratio n + val_size n > (n : ℤ)
  · rw [if_pos hg] at h
    cases h
    rfl
  rw [if_neg hg] at h
  rcases hdr : dictGet ((List.map (fun p => p.1) pg).zip combo) "DROPOUT" with _ | vdr <;>
    simp only [hdr] at h
  · cases h
  rcases hlr : dictGet ((List.map (fun p => p.1) pg).zip combo) "INITIAL_LR" with _ | vlr <;>
    simp only [hlr] at h
  · cases h
  rcases hwd : dictGet ((List.map (fun p => p.1) pg).zip combo) "WEIGHT_DECAY" with _ | vwd <;>
    simp only [hwd] at h
  · cases h
  rcases hep : epochsForLR vlr with e | epochs <;> simp only [hep] at h
  · cases h
  rcases hwr : writeFoldResult f0
      { params := (List.map (fun p => p.1) pg).zip combo, train_percent := ratio,
        mae := if (epochSchedule epochs).any (fun p => p.2) then some mae else none,
        completion_time := now } with _ | f1 <;>
    simp only [hwr] at h
  · cases h
  cases h
  rfl

/-- Witness for C9: a complete single-trial invocation (one-point grid,
fold 0, 100 graphs) returns normally, and its triple is empty/None/None. -/
theorem gridSearch_return_witness :
    ((exampleFile, ⟨[], none, none⟩) : Option Json × GSReturn).2 =
      ⟨[], none, none⟩ :=
  gridSearch_return exampleGrid 0 0 100 (1/2) none "t"
    (exampleFile, ⟨[], none, none⟩) (by with_unfolding_all rfl)

/-- Witness for C1: the spec's end-to-end scenario — a single batch
(B = 1) of a 4-node graph with H = 12, P = 9, the model's 8 heads —
produces a (4, 9) predictions tensor, exercising the squeeze path. -/
theorem ST_GAT_output_shape_witness :
    ST_GAT_forward 1 4 12 9 8 16 = some ([4, 9], [16, 8, 1]) :=
  ST_GAT_output_shape 1 4 12 9 8 16 (by decide) (by decide) (by decide)
    (by decide) (by decide)

end GATMobility
